import Mathlib

/-
Verification development for the QMC5883 magnetometer driver core
(qmc5883_core.c).  The driver state that matters to the properties below
is the 8-bit control register 1 of the chip, the status-register polling
loop, and the per-variant lookup tables.  Register transactions are
modelled by explicit outcome parameters: a regmap read is a pair of a
return code and the value read, a bulk read is a pair of a return code
and the byte buffer filled, and a register write either applies its
read-modify-write transform or leaves the register unchanged when the
transaction fails.  Out-of-bounds C array indexing is modelled by
Option-valued list lookup, none standing for the undefined access.
-/

namespace QMC5883

/-- Errno value EIO (5); the driver returns -EIO on timeout. -/
def EIO_errno : Int := 5

/-- Errno value EINVAL (22). -/
def EINVAL : Int := 22

/-- Errno value ENOMEM (12). -/
def ENOMEM : Int := 12

/-- Kernel IIO_VAL_INT return format code. -/
def IIO_VAL_INT : Int := 1

/-- Kernel IIO_VAL_INT_PLUS_MICRO return format code. -/
def IIO_VAL_INT_PLUS_MICRO : Int := 2

/-- QMC5883_DATA_READY: bit 0 of the status register. -/
def QMC5883_DATA_READY : Nat := 0x1

/-- QMC5883_MODE_STANDBY mode encoding. -/
def QMC5883_MODE_STANDBY : Nat := 0x00

/-- QMC5883_MODE_CONTINUOUS mode encoding. -/
def QMC5883_MODE_CONTINUOUS : Nat := 0x01

/-- QMC5883_MODE_MASK: mode field is bits 0-1 of control register 1. -/
def QMC5883_MODE_MASK : Nat := 0x03

/-- QMC5883_RATE_OFFSET: rate field starts at bit 2. -/
def QMC5883_RATE_OFFSET : Nat := 0x02

/-- QMC5883_RATE_DEFAULT register encoding. -/
def QMC5883_RATE_DEFAULT : Nat := 0x00

/-- QMC5883_RATE_MASK: rate field is bits 2-3. -/
def QMC5883_RATE_MASK : Nat := 0x0C

/-- QMC5883_RANGE_GAIN_OFFSET: gain field starts at bit 4. -/
def QMC5883_RANGE_GAIN_OFFSET : Nat := 0x04

/-- QMC5883_RANGE_GAIN_MASK: gain field is bits 4-5. -/
def QMC5883_RANGE_GAIN_MASK : Nat := 0x30

/-- QMC5883_OVERSAMPLING_OFFSET: oversampling field starts at bit 6. -/
def QMC5883_OVERSAMPLING_OFFSET : Nat := 0x06

/-- QMC5883_OVERSAMPLING_MASK: oversampling field is bits 6-7. -/
def QMC5883_OVERSAMPLING_MASK : Nat := 0xC0

/-- qmc5883_regval_to_samp_freq: sampling-rate table of the QMC5883 variant,
(Hz, micro-Hz) pairs indexed by register encoding. -/
def qmc5883_regval_to_samp_freq : List (Int × Int) :=
  [(10, 0), (50, 0), (100, 0), (200, 0)]

/-- qmc5883_regval_to_oversampling_ratio: oversampling table of the QMC5883
variant, (ratio, fraction) pairs indexed by register encoding. -/
def qmc5883_regval_to_oversampling_tbl : List (Int × Int) :=
  [(512, 0), (256, 0), (128, 0), (64, 0)]

/-- qmc5883_regval_to_full_scale: full-scale table of the QMC5883 variant,
indexed by gain register encoding. -/
def qmc5883_regval_to_full_scale : List Int :=
  [2, 8]

/-- regmap_update_bits on an 8-bit register: read-modify-write that replaces
only the masked bits, new = (old and not mask) or (val and mask). -/
def regmap_update_bits (orig mask val : Nat) : Nat :=
  (orig &&& (0xFF ^^^ mask)) ||| (val &&& mask)

/-- qmc5883_set_mode: update of the mode bit-field (bits 0-1) of control
register 1, returning the new register value. -/
def qmc5883_set_mode (reg : Nat) (operating_mode : Nat) : Nat :=
  regmap_update_bits reg QMC5883_MODE_MASK operating_mode

/-- qmc5883_set_samp_freq: update of the rate bit-field (bits 2-3) of control
register 1 with the rate index shifted to its offset. -/
def qmc5883_set_samp_freq (reg : Nat) (rate : Nat) : Nat :=
  regmap_update_bits reg QMC5883_RATE_MASK (rate <<< QMC5883_RATE_OFFSET)

/-- qmc5883_common_suspend: puts the device in standby mode. -/
def qmc5883_common_suspend (reg : Nat) : Nat :=
  qmc5883_set_mode reg QMC5883_MODE_STANDBY

/-- qmc5883_common_resume: puts the device in continuous mode. -/
def qmc5883_common_resume (reg : Nat) : Nat :=
  qmc5883_set_mode reg QMC5883_MODE_CONTINUOUS

/-- The linear search loop inside qmc5883_get_samp_freq_index: walks the
table comparing both components, returning the first matching index. -/
def samp_freq_index_loop (val val2 : Int) : List (Int × Int) → Nat → Int
  | [], _ => -EINVAL
  | p :: ps, i =>
    if p.1 = val ∧ p.2 = val2 then (i : Int)
    else samp_freq_index_loop val val2 ps (i + 1)

/-- qmc5883_get_samp_freq_index: exact-match lookup of a (Hz, micro-Hz) pair
in the sampling-rate table; -EINVAL when the pair is absent. -/
def qmc5883_get_samp_freq_index (val val2 : Int) : Int :=
  samp_freq_index_loop val val2 qmc5883_regval_to_samp_freq 0

/-- One status-register poll outcome: the regmap_read return code paired with
the value read.  A negative code is a failed transaction. -/
def pollNotReady (poll : Nat → Int × Nat) (i : Nat) : Prop :=
  0 ≤ (poll i).1 ∧ (poll i).2 &&& QMC5883_DATA_READY = 0

instance (poll : Nat → Int × Nat) (i : Nat) : Decidable (pollNotReady poll i) := by
  unfold pollNotReady; infer_instance

/-- The while loop of qmc5883_wait_measurement: fuel is the remaining value
of the tries counter, i counts polls already performed.  Returns the function
return code paired with the total number of polls performed. -/
def waitLoop (poll : Nat → Int × Nat) : Nat → Nat → Int × Nat
  | 0, i => (-EIO_errno, i)
  | t + 1, i =>
    if (poll i).1 < 0 then ((poll i).1, i + 1)
    else if (poll i).2 &&& QMC5883_DATA_READY ≠ 0 then (0, i + 1)
    else waitLoop poll t (i + 1)

/-- qmc5883_wait_measurement: polls the status register up to 150 times for
the data-ready bit; 0 on success, -EIO when the bound is exhausted, the
failing transaction code when a poll fails.  Second component is the number
of polls performed. -/
def qmc5883_wait_measurement (poll : Nat → Int × Nat) : Int × Nat :=
  waitLoop poll 150 0

/-- le16_to_cpu on a pair of buffer bytes: the first byte of the pair is the
least significant byte of the 16-bit little-endian register value. -/
def le16_to_cpu (lo hi : Nat) : Nat :=
  lo + 256 * hi

/-- sign_extend32(x, 15): reinterprets the low 16 bits of x as a 16-bit
two-complement value and widens it to a signed integer. -/
def sign_extend32_15 (x : Nat) : Int :=
  if x % 65536 < 32768 then ((x % 65536 : Nat) : Int)
  else ((x % 65536 : Nat) : Int) - 65536

/-- qmc5883_read_measurement: waits for data ready, bulk-reads the six data
output bytes, then converts values idx from little-endian to host order and
sign-extends from 16 bits.  bulk is the bulk-read outcome: return code and
buffer contents.  some (Except.error e) is an error return with the output
untouched, some (Except.ok v) is an IIO_VAL_INT return writing v, and none
is the undefined access values idx with idx out of the 3-element array. -/
def qmc5883_read_measurement (poll : Nat → Int × Nat) (bulk : Int × (Nat → Nat))
    (idx : Nat) : Option (Except Int Int) :=
  if (qmc5883_wait_measurement poll).1 < 0 then
    some (Except.error (qmc5883_wait_measurement poll).1)
  else if bulk.1 < 0 then
    some (Except.error bulk.1)
  else if idx < 3 then
    some (Except.ok (sign_extend32_15 (le16_to_cpu (bulk.2 (2 * idx)) (bulk.2 (2 * idx + 1)))))
  else
    none

/-- The channel-info mask switched on by qmc5883_read_raw and
qmc5883_write_raw: the four handled kinds plus every other mask value. -/
inductive IIOChanInfo where
  | raw
  | scale
  | sampFreq
  | oversampling
  | other (n : Nat)

/-- The transaction outcomes qmc5883_read_raw depends on: the control
register 1 read (return code and value), the status polls, and the data
output bulk read (return code and buffer). -/
structure DeviceEnv where
  ctrlRead : Int × Nat
  poll : Nat → Int × Nat
  bulk : Int × (Nat → Nat)

/-- A device whose control-register read succeeds and returns reg; the
acquisition transactions are immaterial for the decode paths. -/
def regEnv (reg : Nat) : DeviceEnv :=
  ⟨(0, reg), fun _ => (0, 0), (0, fun _ => 0)⟩

/-- qmc5883_read_raw: switch on the channel-info mask.  Decode paths read
control register 1, shift the register value right by the field offset (the
source applies no mask) and index the variant table with it.  The result is
the returned code together with the two output values (unchanged inputs when
the source leaves the outputs unwritten); none models the undefined
out-of-bounds table access. -/
def qmc5883_read_raw (env : DeviceEnv) (scanIndex : Nat) (mask : IIOChanInfo)
    (val val2 : Int) : Option (Int × Int × Int) :=
  match mask with
  | IIOChanInfo.raw =>
    match qmc5883_read_measurement env.poll env.bulk scanIndex with
    | none => none
    | some (Except.error e) => some (e, val, val2)
    | some (Except.ok v) => some (IIO_VAL_INT, v, val2)
  | IIOChanInfo.scale =>
    if env.ctrlRead.1 < 0 ∨ 2 < env.ctrlRead.1 then some (env.ctrlRead.1, val, val2)
    else
      match qmc5883_regval_to_full_scale[env.ctrlRead.2 >>> QMC5883_RANGE_GAIN_OFFSET]? with
      | none => none
      | some s => some (IIO_VAL_INT, s, val2)
  | IIOChanInfo.sampFreq =>
    if env.ctrlRead.1 < 0 then some (env.ctrlRead.1, val, val2)
    else
      match qmc5883_regval_to_samp_freq[env.ctrlRead.2 >>> QMC5883_RATE_OFFSET]? with
      | none => none
      | some p => some (IIO_VAL_INT_PLUS_MICRO, p.1, p.2)
  | IIOChanInfo.oversampling =>
    if env.ctrlRead.1 < 0 then some (env.ctrlRead.1, val, val2)
    else
      match qmc5883_regval_to_oversampling_tbl[env.ctrlRead.2 >>> QMC5883_OVERSAMPLING_OFFSET]? with
      | none => none
      | some p => some (IIO_VAL_INT, p.1, p.2)
  | IIOChanInfo.other _ => some (0, val, val2)

/-- qmc5883_write_raw: only the sampling-frequency mask is handled; the rate
index is looked up and, when found, written to the rate bit-field.  Returns
the code together with the control register after the call. -/
def qmc5883_write_raw (reg : Nat) (mask : IIOChanInfo) (val val2 : Int) : Int × Nat :=
  match mask with
  | IIOChanInfo.sampFreq =>
    let rate := qmc5883_get_samp_freq_index val val2
    if rate < 0 then (-EINVAL, reg)
    else (0, qmc5883_set_samp_freq reg rate.toNat)
  | _ => (-EINVAL, reg)

/-- Observable outcome of one qmc5883_trigger_handler invocation: the sample
pushed to the buffer sink, if any, as the three host-order channel values,
and how many times iio_trigger_notify_done ran. -/
structure TriggerResult where
  pushed : Option (Nat × Nat × Nat)
  notified : Nat

/-- qmc5883_trigger_handler: waits for data ready, bulk-reads the three
axis values into the scan buffer and pushes them with a timestamp; on any
failure the sample is dropped; the done label is reached on every path. -/
def qmc5883_trigger_handler (poll : Nat → Int × Nat) (bulk : Int × (Nat → Nat)) :
    TriggerResult :=
  if (qmc5883_wait_measurement poll).1 < 0 then ⟨none, 1⟩
  else if bulk.1 < 0 then ⟨none, 1⟩
  else
    ⟨some (le16_to_cpu (bulk.2 0) (bulk.2 1),
           le16_to_cpu (bulk.2 2) (bulk.2 3),
           le16_to_cpu (bulk.2 4) (bulk.2 5)), 1⟩

/-- The transaction outcomes qmc5883_common_probe depends on, in program
order: initial control register 1 value, allocation success, mount-matrix
read code, then the return codes of the five fallible steps that follow
(default rate write, control register 2 write, continuous-mode write,
triggered-buffer setup, device registration) and of the standby-mode write
on the unwind path.  A failed register write leaves the register unchanged. -/
structure ProbeEnv where
  reg0 : Nat
  allocOk : Bool
  mountRet : Int
  sampFreqRet : Int
  ctrl2Ret : Int
  modeContRet : Int
  bufSetupRet : Int
  devRegRet : Int
  modeStandbyRet : Int

/-- qmc5883_common_probe: allocation, mount-matrix read, qmc5883_init
(default rate, control register 2, continuous mode), triggered-buffer setup,
device registration; failures of the last two unwind through the standby
write before the error is returned.  Returns the code and the final control
register 1 value. -/
def qmc5883_common_probe (e : ProbeEnv) : Int × Nat :=
  if e.allocOk = false then (-ENOMEM, e.reg0)
  else if e.mountRet ≠ 0 then (e.mountRet, e.reg0)
  else if e.sampFreqRet < 0 then (e.sampFreqRet, e.reg0)
  else
    let reg1 := qmc5883_set_samp_freq e.reg0 QMC5883_RATE_DEFAULT
    if e.ctrl2Ret < 0 then (e.ctrl2Ret, reg1)
    else if e.modeContRet < 0 then (e.modeContRet, reg1)
    else
      let reg2 := qmc5883_set_mode reg1 QMC5883_MODE_CONTINUOUS
      if e.bufSetupRet < 0 then
        (e.bufSetupRet,
          if e.modeStandbyRet < 0 then reg2 else qmc5883_set_mode reg2 QMC5883_MODE_STANDBY)
      else if e.devRegRet < 0 then
        (e.devRegRet,
          if e.modeStandbyRet < 0 then reg2 else qmc5883_set_mode reg2 QMC5883_MODE_STANDBY)
      else (0, reg2)

/-- A status-poll oracle that never reports data ready. -/
def pollNeverReady : Nat → Int × Nat :=
  fun _ => (0, 0)

/-- A status-poll oracle not ready for the first 149 polls and ready on the
150th. -/
def pollReadyAtLast : Nat → Int × Nat :=
  fun i => if i < 149 then (0, 0) else (0, 1)

/-- A status-poll oracle ready immediately. -/
def pollReadyNow : Nat → Int × Nat :=
  fun _ => (0, 1)

/-- A status-poll oracle whose first transaction fails with -EIO. -/
def pollFailEIOcode : Nat → Int × Nat :=
  fun _ => (-EIO_errno, 0)

/-- A status-poll oracle whose first transaction fails with -ENODEV (-19). -/
def pollFailENODEV : Nat → Int × Nat :=
  fun _ => (-19, 0)

/-- A successful bulk read filling the buffer with zero bytes. -/
def bulkZero : Int × (Nat → Nat) :=
  (0, fun _ => 0)

/-- A failed bulk read. -/
def bulkFail : Int × (Nat → Nat) :=
  (-EIO_errno, fun _ => 0)

/-- A data-output buffer whose first axis bytes are 0x34, 0x92 (the
little-endian encoding of 0x9234, a negative 16-bit sample). -/
def bytesSample : Nat → Nat :=
  fun i => if i = 0 then 52 else if i = 1 then 146 else 0

/-- A probe environment whose triggered-buffer setup fails with -EIO after
the device reached continuous mode, the unwind write succeeding. -/
def probeEnvBufFail : ProbeEnv :=
  ⟨0, true, 0, 0, 0, 0, -EIO_errno, 0, 0⟩

/-- A probe environment whose device registration fails with -ENOMEM after
the device reached continuous mode, the unwind write succeeding. -/
def probeEnvRegFail : ProbeEnv :=
  ⟨0x55, true, 0, 0, 0, 0, 0, -ENOMEM, 0⟩

/-- When every poll within the fuel bound is a successful transaction with
the data-ready bit clear, the loop exhausts the fuel, performing one poll
per unit of fuel, and returns -EIO. -/
theorem waitLoop_timeout (poll : Nat → Int × Nat) :
    ∀ (t i : Nat), (∀ j, j < t → pollNotReady poll (i + j)) →
      waitLoop poll t i = (-EIO_errno, i + t) := by
  intro t
  induction t with
  | zero => intro i _; simp [waitLoop]
  | succ t ih =>
    intro i h
    have h0 : pollNotReady poll i := by simpa using h 0 (Nat.succ_pos t)
    have hshift : ∀ j, j < t → pollNotReady poll (i + 1 + j) := by
      intro j hj
      have hmem := h (j + 1) (by omega)
      have e : i + (j + 1) = i + 1 + j := by omega
      rwa [e] at hmem
    have hn1 : ¬ (poll i).1 < 0 := not_lt.mpr h0.1
    rw [waitLoop, if_neg hn1, if_neg (not_not_intro h0.2)]
    rw [ih (i + 1) hshift]
    have e : i + 1 + t = i + (t + 1) := by omega
    rw [e]

/-- When the first t polls are successful with the data-ready bit clear and
poll t is a successful transaction with the bit set, the loop with fuel
t + 1 returns success after t + 1 polls. -/
theorem waitLoop_ready_last (poll : Nat → Int × Nat) :
    ∀ (t i : Nat), (∀ j, j < t → pollNotReady poll (i + j)) →
      0 ≤ (poll (i + t)).1 → (poll (i + t)).2 &&& QMC5883_DATA_READY ≠ 0 →
      waitLoop poll (t + 1) i = (0, i + t + 1) := by
  intro t
  induction t with
  | zero =>
    intro i _ hr hready
    simp only [Nat.add_zero] at hr hready ⊢
    have hn1 : ¬ (poll i).1 < 0 := not_lt.mpr hr
    rw [waitLoop, if_neg hn1, if_pos hready]
  | succ t ih =>
    intro i h hr hready
    have h0 : pollNotReady poll i := by simpa using h 0 (Nat.succ_pos t)
    have hshift : ∀ j, j < t → pollNotReady poll (i + 1 + j) := by
      intro j hj
      have hmem := h (j + 1) (by omega)
      have e : i + (j + 1) = i + 1 + j := by omega
      rwa [e] at hmem
    have e : i + (t + 1) = i + 1 + t := by omega
    rw [e] at hr hready
    have hn1 : ¬ (poll i).1 < 0 := not_lt.mpr h0.1
    rw [waitLoop, if_neg hn1, if_neg (not_not_intro h0.2)]
    rw [ih (i + 1) hshift hr hready]
    have e2 : i + 1 + t + 1 = i + (t + 1) + 1 := by omega
    rw [e2]

/-- When the first k polls are successful with the data-ready bit clear and
poll k itself fails, the loop returns the failing transaction code after
k + 1 polls, provided the fuel is not yet exhausted. -/
theorem waitLoop_transport_error (poll : Nat → Int × Nat) :
    ∀ (k t i : Nat), k < t → (∀ j, j < k → pollNotReady poll (i + j)) →
      (poll (i + k)).1 < 0 →
      waitLoop poll t i = ((poll (i + k)).1, i + k + 1) := by
  intro k
  induction k with
  | zero =>
    intro t i hkt h herr
    obtain ⟨t', rfl⟩ : ∃ t', t = t' + 1 := ⟨t - 1, by omega⟩
    simp only [Nat.add_zero] at herr ⊢
    rw [waitLoop, if_pos herr]
  | succ k ih =>
    intro t i hkt h herr
    obtain ⟨t', rfl⟩ : ∃ t', t = t' + 1 := ⟨t - 1, by omega⟩
    have h0 : pollNotReady poll i := by simpa using h 0 (Nat.succ_pos k)
    have hshift : ∀ j, j < k → pollNotReady poll (i + 1 + j) := by
      intro j hj
      have hmem := h (j + 1) (by omega)
      have e : i + (j + 1) = i + 1 + j := by omega
      rwa [e] at hmem
    have e : i + (k + 1) = i + 1 + k := by omega
    rw [e] at herr
    have hn1 : ¬ (poll i).1 < 0 := not_lt.mpr h0.1
    rw [waitLoop, if_neg hn1, if_neg (not_not_intro h0.2)]
    rw [ih t' (i + 1) (by omega) hshift herr]
    have e2 : i + 1 + k + 1 = i + (k + 1) + 1 := by omega
    rw [e, e2]

/-- C3: if the status register never has the data-ready bit set,
qmc5883_wait_measurement performs exactly 150 status polls, never fewer and
never more, before failing; and if the data-ready bit first appears on the
150th poll the routine returns success, so the triggered burst read still
produces a sample. -/
theorem wait_measurement_exact_poll_bound (pollA pollB : Nat → Int × Nat)
    (h1 : ∀ i, i < 150 → pollNotReady pollA i)
    (h2 : ∀ i, i < 149 → pollNotReady pollB i)
    (h3 : 0 ≤ (pollB 149).1)
    (h4 : (pollB 149).2 &&& QMC5883_DATA_READY ≠ 0) :
    qmc5883_wait_measurement pollA = (-EIO_errno, 150) ∧
    qmc5883_wait_measurement pollB = (0, 150) ∧
    (qmc5883_trigger_handler pollB bulkZero).pushed.isSome = true := by
  have hA : qmc5883_wait_measurement pollA = (-EIO_errno, 150) := by
    simpa using waitLoop_timeout pollA 150 0 (by intro j hj; simpa using h1 j hj)
  have hB : qmc5883_wait_measurement pollB = (0, 150) := by
    have := waitLoop_ready_last pollB 149 0 (by intro j hj; simpa using h2 j hj)
      (by simpa using h3) (by simpa using h4)
    simpa [qmc5883_wait_measurement] using this
  refine ⟨hA, hB, ?_⟩
  simp [qmc5883_trigger_handler, hB, bulkZero]

/-- C3 witness: evaluation at the never-ready oracle and at the oracle that
first reports ready on the 150th poll. -/
theorem wait_measurement_exact_poll_bound_witness :
    qmc5883_wait_measurement pollNeverReady = (-EIO_errno, 150) ∧
    qmc5883_wait_measurement pollReadyAtLast = (0, 150) ∧
    (qmc5883_trigger_handler pollReadyAtLast bulkZero).pushed.isSome = true :=
  wait_measurement_exact_poll_bound pollNeverReady pollReadyAtLast
    (by decide) (by decide) (by decide) (by decide)

/-- C4 counterexample: a timeout and a poll transaction that fails with the
code -EIO produce the very same return value, so a caller cannot
distinguish the two outcomes as the claim states. -/
theorem wait_timeout_transport_error_collide :
    (qmc5883_wait_measurement pollNeverReady).1 = -EIO_errno ∧
    (qmc5883_wait_measurement pollFailEIOcode).1 = -EIO_errno := by
  decide

/-- C4 (amended): qmc5883_wait_measurement returns -EIO when its 150-poll
bound is exhausted without the data-ready flag and propagates the failing
poll transaction code verbatim; the caller can distinguish the two outcomes
exactly when that code differs from -EIO. -/
theorem wait_measurement_error_codes (poll pollf : Nat → Int × Nat) (k : Nat) (e : Int)
    (h1 : ∀ i, i < 150 → pollNotReady poll i)
    (h2 : ∀ j, j < k → pollNotReady pollf j)
    (h3 : k < 150) (h4 : (pollf k).1 = e) (h5 : e < 0) :
    (qmc5883_wait_measurement poll).1 = -EIO_errno ∧
    (qmc5883_wait_measurement pollf).1 = e ∧
    (e ≠ -EIO_errno →
      (qmc5883_wait_measurement pollf).1 ≠ (qmc5883_wait_measurement poll).1) := by
  have hA : qmc5883_wait_measurement poll = (-EIO_errno, 150) := by
    simpa using waitLoop_timeout poll 150 0 (by intro j hj; simpa using h1 j hj)
  have hF : qmc5883_wait_measurement pollf = ((pollf k).1, k + 1) := by
    simpa using waitLoop_transport_error pollf k 150 0 h3
      (by intro j hj; simpa using h2 j hj) (by simpa [h4] using h5)
  refine ⟨by rw [hA], by rw [hF, h4], ?_⟩
  intro hne
  rw [hF, hA, h4]
  simpa using hne

/-- C4 witness: a transport failure with the code -ENODEV is distinguishable
from the -EIO timeout. -/
theorem wait_measurement_error_codes_witness :
    (qmc5883_wait_measurement pollNeverReady).1 = -EIO_errno ∧
    (qmc5883_wait_measurement pollFailENODEV).1 = -19 ∧
    ((-19 : Int) ≠ -EIO_errno →
      (qmc5883_wait_measurement pollFailENODEV).1 ≠ (qmc5883_wait_measurement pollNeverReady).1) :=
  wait_measurement_error_codes pollNeverReady pollFailENODEV 0 (-19)
    (by decide) (by decide) (by decide) (by decide) (by decide)

/-- C6: every execution of qmc5883_trigger_handler acknowledges the trigger
as complete exactly once, and when the wait for data ready or the bulk read
fails no sample is pushed to the buffer sink. -/
theorem trigger_handler_drops_and_notifies (poll : Nat → Int × Nat)
    (bulk : Int × (Nat → Nat)) :
    (qmc5883_trigger_handler poll bulk).notified = 1 ∧
    ((qmc5883_wait_measurement poll).1 < 0 ∨ bulk.1 < 0 →
      (qmc5883_trigger_handler poll bulk).pushed = none) := by
  constructor
  · by_cases hw : (qmc5883_wait_measurement poll).1 < 0
    · simp [qmc5883_trigger_handler, hw]
    · by_cases hb : bulk.1 < 0 <;> simp [qmc5883_trigger_handler, hw, hb]
  · rintro (hw | hb)
    · simp [qmc5883_trigger_handler, hw]
    · by_cases hw : (qmc5883_wait_measurement poll).1 < 0
      · simp [qmc5883_trigger_handler, hw]
      · simp [qmc5883_trigger_handler, hw, hb]

/-- C6 witness: a failed bulk read drops the sample while the trigger is
still acknowledged once. -/
theorem trigger_handler_drops_and_notifies_witness :
    (qmc5883_trigger_handler pollReadyNow bulkFail).notified = 1 ∧
    (qmc5883_trigger_handler pollReadyNow bulkFail).pushed = none :=
  ⟨(trigger_handler_drops_and_notifies pollReadyNow bulkFail).1,
   (trigger_handler_drops_and_notifies pollReadyNow bulkFail).2 (Or.inr (by decide))⟩

set_option maxRecDepth 8192 in
/-- C7: for every 8-bit control register value, suspend leaves the mode
field at the standby encoding 0x00 and resume at the continuous encoding
0x01, and neither call changes the rate, gain or oversampling bits 2-7. -/
theorem suspend_resume_mode_and_frame (reg : Nat) (hreg : reg < 256) :
    qmc5883_common_suspend reg &&& QMC5883_MODE_MASK = QMC5883_MODE_STANDBY ∧
    qmc5883_common_resume reg &&& QMC5883_MODE_MASK = QMC5883_MODE_CONTINUOUS ∧
    qmc5883_common_suspend reg &&& 0xFC = reg &&& 0xFC ∧
    qmc5883_common_resume reg &&& 0xFC = reg &&& 0xFC := by
  revert hreg
  revert reg
  decide

/-- C7 witness: evaluation at the register value 0x55. -/
theorem suspend_resume_mode_and_frame_witness :
    qmc5883_common_suspend 85 &&& QMC5883_MODE_MASK = QMC5883_MODE_STANDBY ∧
    qmc5883_common_resume 85 &&& QMC5883_MODE_MASK = QMC5883_MODE_CONTINUOUS ∧
    qmc5883_common_suspend 85 &&& 0xFC = 85 &&& 0xFC ∧
    qmc5883_common_resume 85 &&& 0xFC = 85 &&& 0xFC :=
  suspend_resume_mode_and_frame 85 (by decide)

/-- Writing the standby encoding to the mode field clears the mode bits of
any register value. -/
theorem set_mode_standby_clears_mode_bits (r : Nat) :
    qmc5883_set_mode r QMC5883_MODE_STANDBY &&& QMC5883_MODE_MASK = QMC5883_MODE_STANDBY := by
  show ((r &&& (0xFF ^^^ 0x03)) ||| (0x00 &&& 0x03)) &&& 0x03 = 0x00
  rw [(by decide : (0xFF ^^^ 0x03 : Nat) = 0xFC), (by decide : (0x00 &&& 0x03 : Nat) = 0),
    Nat.or_zero, Nat.and_assoc, (by decide : (0xFC &&& 0x03 : Nat) = 0), Nat.and_zero]

/-- C8: when probe fails after the device entered continuous mode, by a
failure of the triggered-buffer setup or of the device registration, and
the unwind write transaction itself succeeds, the error returned is
negative and the final control register has the mode field at the standby
encoding. -/
theorem probe_unwind_forces_standby (e : ProbeEnv)
    (hA : e.allocOk = true) (hM : e.mountRet = 0)
    (hS : 0 ≤ e.sampFreqRet) (hC : 0 ≤ e.ctrl2Ret) (hMo : 0 ≤ e.modeContRet)
    (hU : 0 ≤ e.modeStandbyRet)
    (hF : e.bufSetupRet < 0 ∨ (0 ≤ e.bufSetupRet ∧ e.devRegRet < 0)) :
    (qmc5883_common_probe e).1 < 0 ∧
    (qmc5883_common_probe e).2 &&& QMC5883_MODE_MASK = QMC5883_MODE_STANDBY := by
  have hprobe : qmc5883_common_probe e =
      (if e.bufSetupRet < 0 then e.bufSetupRet else e.devRegRet,
       qmc5883_set_mode (qmc5883_set_mode (qmc5883_set_samp_freq e.reg0 QMC5883_RATE_DEFAULT)
         QMC5883_MODE_CONTINUOUS) QMC5883_MODE_STANDBY) := by
    unfold qmc5883_common_probe
    rcases hF with hB | ⟨hBok, hD⟩
    · simp [hA, hM, not_lt.mpr hS, not_lt.mpr hC, not_lt.mpr hMo, not_lt.mpr hU, hB]
    · simp [hA, hM, not_lt.mpr hS, not_lt.mpr hC, not_lt.mpr hMo, not_lt.mpr hU,
        not_lt.mpr hBok, hD]
  rw [hprobe]
  refine ⟨?_, set_mode_standby_clears_mode_bits _⟩
  rcases hF with hB | ⟨hBok, hD⟩
  · rw [if_pos hB]; exact hB
  · rw [if_neg (not_lt.mpr hBok)]; exact hD

/-- C8 witness: a triggered-buffer setup failure with -EIO after continuous
mode was entered returns a negative code with the mode field at standby. -/
theorem probe_unwind_forces_standby_witness :
    (qmc5883_common_probe probeEnvBufFail).1 < 0 ∧
    (qmc5883_common_probe probeEnvBufFail).2 &&& QMC5883_MODE_MASK = QMC5883_MODE_STANDBY :=
  probe_unwind_forces_standby probeEnvBufFail rfl rfl (by decide) (by decide) (by decide)
    (by decide) (Or.inl (by decide))

/-- C10: for every channel-info mask other than the four handled kinds,
qmc5883_read_raw returns 0, the success code, with both output value
parameters left unwritten, rather than an InvalidArgument error. -/
theorem read_raw_unhandled_mask_returns_zero (env : DeviceEnv) (scanIndex n : Nat)
    (val val2 : Int) :
    qmc5883_read_raw env scanIndex (IIOChanInfo.other n) val val2 = some (0, val, val2) :=
  rfl

/-- C10 witness: evaluation at a concrete unhandled mask. -/
theorem read_raw_unhandled_mask_returns_zero_witness :
    qmc5883_read_raw (regEnv 0) 0 (IIOChanInfo.other 99) 7 8 = some (0, 7, 8) :=
  read_raw_unhandled_mask_returns_zero (regEnv 0) 0 99 7 8

/-- The linear search returns -EINVAL when the pair is absent from the
table, whatever the starting index. -/
theorem samp_freq_index_loop_not_found (v1 v2 : Int) :
    ∀ (l : List (Int × Int)) (i : Nat), (v1, v2) ∉ l →
      samp_freq_index_loop v1 v2 l i = -EINVAL := by
  intro l
  induction l with
  | nil => intro i _; rfl
  | cons p ps ih =>
    intro i h
    rw [List.mem_cons, not_or] at h
    have hne : ¬ (p.1 = v1 ∧ p.2 = v2) := by
      rintro ⟨ha, hb⟩
      exact h.1 (by cases p; simp_all)
    rw [samp_freq_index_loop, if_neg hne]
    exact ih (i + 1) h.2

/-- C5: for every pair absent from the sampling-rate table,
qmc5883_get_samp_freq_index returns -EINVAL and qmc5883_write_raw with the
sampling-frequency mask fails with -EINVAL, leaving the control register
unchanged. -/
theorem write_raw_rejects_unknown_rate (reg : Nat) (v1 v2 : Int)
    (h : (v1, v2) ∉ qmc5883_regval_to_samp_freq) :
    qmc5883_get_samp_freq_index v1 v2 = -EINVAL ∧
    qmc5883_write_raw reg IIOChanInfo.sampFreq v1 v2 = (-EINVAL, reg) := by
  have hidx : qmc5883_get_samp_freq_index v1 v2 = -EINVAL :=
    samp_freq_index_loop_not_found v1 v2 qmc5883_regval_to_samp_freq 0 h
  refine ⟨hidx, ?_⟩
  simp [qmc5883_write_raw, hidx, EINVAL]

/-- C5 witness: the pair (60, 0) is not in the table, so the write is
rejected and the control register 0x1D is unchanged. -/
theorem write_raw_rejects_unknown_rate_witness :
    qmc5883_get_samp_freq_index 60 0 = -EINVAL ∧
    qmc5883_write_raw 0x1D IIOChanInfo.sampFreq 60 0 = (-EINVAL, 0x1D) :=
  write_raw_rejects_unknown_rate 0x1D 60 0 (by decide)

/-- C9: on a successful acquisition qmc5883_read_measurement returns the
requested 16-bit register pair converted from little-endian transport order
to host order and then sign-extended from 16 bits, in that order; the
result is an integer in the signed 16-bit range congruent to the 16-bit
register value modulo 65536. -/
theorem read_measurement_byte_order_then_sign_extend (poll : Nat → Int × Nat)
    (ret : Int) (bytes : Nat → Nat) (idx : Nat)
    (hidx : idx < 3)
    (hwait : 0 ≤ (qmc5883_wait_measurement poll).1)
    (hret : 0 ≤ ret)
    (hlo : bytes (2 * idx) < 256) (hhi : bytes (2 * idx + 1) < 256) :
    qmc5883_read_measurement poll (ret, bytes) idx =
      some (Except.ok (sign_extend32_15 (le16_to_cpu (bytes (2 * idx)) (bytes (2 * idx + 1))))) ∧
    -32768 ≤ sign_extend32_15 (le16_to_cpu (bytes (2 * idx)) (bytes (2 * idx + 1))) ∧
    sign_extend32_15 (le16_to_cpu (bytes (2 * idx)) (bytes (2 * idx + 1))) < 32768 ∧
    sign_extend32_15 (le16_to_cpu (bytes (2 * idx)) (bytes (2 * idx + 1))) % 65536 =
      (le16_to_cpu (bytes (2 * idx)) (bytes (2 * idx + 1)) : Int) := by
  constructor
  · unfold qmc5883_read_measurement
    rw [if_neg (not_lt.mpr hwait), if_neg (not_lt.mpr hret), if_pos hidx]
  · have hmlt : le16_to_cpu (bytes (2 * idx)) (bytes (2 * idx + 1)) < 65536 := by
      unfold le16_to_cpu; omega
    unfold sign_extend32_15
    rw [Nat.mod_eq_of_lt hmlt]
    split_ifs with hcase
    · exact ⟨by omega, by omega, by omega⟩
    · exact ⟨by omega, by omega, by omega⟩

/-- C9 witness: the little-endian bytes 0x34, 0x92 of axis 0 decode through
host-order conversion and sign extension to a negative sample. -/
theorem read_measurement_byte_order_then_sign_extend_witness :
    qmc5883_read_measurement pollReadyNow (0, bytesSample) 0 =
      some (Except.ok (sign_extend32_15 (le16_to_cpu (bytesSample 0) (bytesSample 1)))) ∧
    -32768 ≤ sign_extend32_15 (le16_to_cpu (bytesSample 0) (bytesSample 1)) ∧
    sign_extend32_15 (le16_to_cpu (bytesSample 0) (bytesSample 1)) < 32768 ∧
    sign_extend32_15 (le16_to_cpu (bytesSample 0) (bytesSample 1)) % 65536 =
      (le16_to_cpu (bytesSample 0) (bytesSample 1) : Int) :=
  read_measurement_byte_order_then_sign_extend pollReadyNow 0 bytesSample 0
    (by decide) (by decide) (by decide) (by decide) (by decide)

set_option maxRecDepth 8192 in
/-- C1 (amended): for every pair in the sampling-rate table and every
initial 8-bit control register whose gain and oversampling bits 4-7 are
zero, as the driver leaves them, applying the rate index found for the pair
and then reading back with the sampling-frequency mask returns the same
pair.  The restriction to zero bits 4-7 is forced by the counterexample:
the read decode shifts the register but does not mask the field. -/
theorem samp_freq_roundtrip_default_bits (reg : Nat) (v1 v2 : Int)
    (hreg : reg < 256) (hhi : reg &&& 0xF0 = 0)
    (hmem : (v1, v2) ∈ qmc5883_regval_to_samp_freq) :
    0 ≤ qmc5883_get_samp_freq_index v1 v2 ∧
    qmc5883_read_raw
      (regEnv (qmc5883_set_samp_freq reg (qmc5883_get_samp_freq_index v1 v2).toNat))
      0 IIOChanInfo.sampFreq 0 0 = some (IIO_VAL_INT_PLUS_MICRO, v1, v2) := by
  have h4 : (v1 = 10 ∧ v2 = 0) ∨ (v1 = 50 ∧ v2 = 0) ∨ (v1 = 100 ∧ v2 = 0) ∨
      (v1 = 200 ∧ v2 = 0) := by
    simpa [qmc5883_regval_to_samp_freq, Prod.ext_iff] using hmem
  clear hmem
  rcases h4 with ⟨rfl, rfl⟩ | ⟨rfl, rfl⟩ | ⟨rfl, rfl⟩ | ⟨rfl, rfl⟩ <;>
    (revert hhi; revert hreg; revert reg) <;> decide

/-- C1 counterexample: the pair (10, 0) is in the table with index 0, yet
from the initial control register 0x10, gain bit 4 set, applying the index
and reading back indexes the rate table out of bounds instead of returning
the pair, because the decode shifts the register without masking the
field. -/
theorem samp_freq_roundtrip_counterexample :
    (10, 0) ∈ qmc5883_regval_to_samp_freq ∧
    qmc5883_get_samp_freq_index 10 0 = 0 ∧
    qmc5883_read_raw (regEnv (qmc5883_set_samp_freq 0x10 0)) 0 IIOChanInfo.sampFreq 0 0 =
      none ∧
    qmc5883_read_raw (regEnv (qmc5883_set_samp_freq 0x10 0)) 0 IIOChanInfo.sampFreq 0 0 ≠
      some (IIO_VAL_INT_PLUS_MICRO, 10, 0) := by
  decide

/-- C1 witness: from the control register 0x01, continuous mode with bits
4-7 clear, requesting 100 Hz finds index 2 and reading back returns
(100, 0), the scenario of the specification. -/
theorem samp_freq_roundtrip_default_bits_witness :
    0 ≤ qmc5883_get_samp_freq_index 100 0 ∧
    qmc5883_read_raw
      (regEnv (qmc5883_set_samp_freq 1 (qmc5883_get_samp_freq_index 100 0).toNat))
      0 IIOChanInfo.sampFreq 0 0 = some (IIO_VAL_INT_PLUS_MICRO, 100, 0) :=
  samp_freq_roundtrip_default_bits 1 100 0 (by decide) (by decide) (by decide)

set_option maxRecDepth 8192 in
/-- C2: the decode paths of qmc5883_read_raw apply the shift but not the
mask of their bit-fields, so the claim fails on the code: control register
0x10 read with the sampling-frequency mask indexes the 4-entry rate table
at 4, and 0x40 read with the scale mask indexes the 2-entry full-scale
table at 4, both out of bounds; only the oversampling decode, whose field
occupies the top two bits, stays in bounds for every 8-bit register
value. -/
theorem read_raw_decode_missing_mask :
    qmc5883_read_raw (regEnv 0x10) 0 IIOChanInfo.sampFreq 0 0 = none ∧
    qmc5883_read_raw (regEnv 0x40) 0 IIOChanInfo.scale 0 0 = none ∧
    (∀ reg, reg < 256 →
      (qmc5883_read_raw (regEnv reg) 0 IIOChanInfo.oversampling 0 0).isSome = true) := by
  decide

end QMC5883
